import Mathlib

/-!
Verification of the Sigmond layered configuration resolver
(src/configure.py and src/config_reader.py).

The configuration tree the Python code manipulates is a nested structure
of TOML-derived values: strings, booleans, integers, lists and
string-keyed dictionaries.  We embed it as the inductive `Value`; a
Python `dict` is an insertion-ordered association list with unique keys
(`Dict`).  A lookup that would raise `KeyError` / `AttributeError` /
`TypeError` in Python is modelled by `Option`: `none` means the Python
code raises at that point.
-/

inductive Value : Type where
  | vstr : String → Value
  | vbool : Bool → Value
  | vint : Int → Value
  | vlist : List Value → Value
  | vdict : List (String × Value) → Value

/-- Python `d[k]` on an association-list dictionary: first match wins
(keys are unique in every tree the code builds). `none` = `KeyError`. -/
def dlookup {α : Type} : List (String × α) → String → Option α
  | [], _ => none
  | (k, v) :: rest, key => if k = key then some v else dlookup rest key

/-- Python `d[k] = v`: replace in place (keeping the key's position, as
Python dicts do) or append a fresh key at the end. -/
def dset {α : Type} : List (String × α) → String → α → List (String × α)
  | [], key, v => [(key, v)]
  | (k, w) :: rest, key, v =>
      if k = key then (key, v) :: rest else (k, w) :: dset rest key v

/-- A Python dictionary of configuration values. -/
abbrev Dict := List (String × Value)

/-- Python truthiness of a value: empty string/list/dict, `False` and `0`
are falsy, everything else truthy. -/
def Value.truthy : Value → Bool
  | Value.vstr s => !s.isEmpty
  | Value.vbool b => b
  | Value.vint n => n != 0
  | Value.vlist l => !l.isEmpty
  | Value.vdict d => !d.isEmpty

/-- Truthiness of `d.get(k)`: `None` (missing key) is falsy. -/
def otruthy : Option Value → Bool
  | none => false
  | some v => v.truthy

/-- Python `d.get(k, default)`. -/
def dgetD (d : Dict) (k : String) (dflt : Value) : Value :=
  (dlookup d k).getD dflt

mutual
/-- Python `repr()` restricted to the value forms in a configuration
tree (strings quote with an apostrophe; containers repr their items). -/
def pyRepr : Value → String
  | Value.vstr s => "'" ++ s ++ "'"
  | Value.vbool b => if b then "True" else "False"
  | Value.vint n => toString n
  | Value.vlist l => "[" ++ String.intercalate ", " (pyReprList l) ++ "]"
  | Value.vdict d => "\x7b" ++ String.intercalate ", " (pyReprPairs d) ++ "\x7d"

def pyReprList : List Value → List String
  | [] => []
  | v :: vs => pyRepr v :: pyReprList vs

def pyReprPairs : List (String × Value) → List String
  | [] => []
  | (k, v) :: ps => ("'" ++ k ++ "': " ++ pyRepr v) :: pyReprPairs ps
end

/-- Python `str()` on a configuration value (used by the f-strings of the
renderers): strings pass through, booleans print `True`/`False`, and
containers fall back to their `repr`. -/
def pyStr : Value → String
  | Value.vstr s => s
  | Value.vbool b => if b then "True" else "False"
  | Value.vint n => toString n
  | v => pyRepr v

/-- Python `str.lower()` (the configuration tokens it is applied to are
ASCII, where `Char.toLower` agrees with Python). -/
def strLower (s : String) : String :=
  String.mk (s.data.map Char.toLower)

/-- Python `str.upper()` (ASCII, as above). -/
def strUpper (s : String) : String :=
  String.mk (s.data.map Char.toUpper)

/-- Python `str.strip()`: drop leading and trailing whitespace. -/
def strTrim (s : String) : String :=
  String.mk
    (((s.data.dropWhile Char.isWhitespace).reverse.dropWhile
        Char.isWhitespace).reverse)

/-- Python `str.startswith(pre)`. -/
def strStartsWith (s pre : String) : Bool :=
  pre.data.isPrefixOf s.data

/-- Python `str.endswith(suf)`. -/
def strEndsWith (s suf : String) : Bool :=
  suf.data.isSuffixOf s.data

/-- Python `s[n:]` on a string. -/
def strDrop (s : String) (n : Nat) : String :=
  String.mk (s.data.drop n)

/-- Python `v.lower()`: only defined on strings; on any other value the
attribute access raises (`none`). -/
def pyLower : Value → Option String
  | Value.vstr s => some (strLower s)
  | _ => none

/-- An environment-variable snapshot (`os.environ` at call time). -/
abbrev Env := List (String × String)

/-- `os.environ.get(name)`. -/
def envGet (env : Env) (name : String) : Option String :=
  dlookup env name

namespace Configure

/-- `SigmondConfig._default_config` (src/configure.py lines 71-104).
`ncpu` stands for `os.cpu_count()`, with `0` encoding Python's `None`
so that `os.cpu_count() or 1` becomes `cpuOr1 ncpu`. -/
def cpuOr1 (ncpu : Nat) : Nat :=
  if ncpu = 0 then 1 else ncpu

def default_config (ncpu : Nat) : Dict :=
  [("build", Value.vdict
      [("skip_query", Value.vbool false),
       ("skip_batch", Value.vbool false),
       ("enable_testing", Value.vbool true),
       ("verbose", Value.vbool false),
       ("precision", Value.vstr "double"),
       ("numbers", Value.vstr "complex"),
       ("default_file_format", Value.vstr "hdf5"),
       ("enable_minuit", Value.vbool false),
       ("enable_grace", Value.vbool false),
       ("build_jobs", Value.vint (Int.ofNat (cpuOr1 ncpu))),
       ("batch_install_dir", Value.vstr ""),
       ("query_install_dir", Value.vstr ""),
       ("extra_cmake_definitions", Value.vlist []),
       ("default_ensembles_file", Value.vstr
          "/Users/johnmeneghini/Documents/LatticeQCD/spectrums/software/sigmond/ensembles.xml")]),
   ("libraries", Value.vdict
      [("hdf5", Value.vdict [("root_dir", Value.vstr "")]),
       ("blas", Value.vdict [("library_path", Value.vstr "")]),
       ("lapack", Value.vdict [("library_path", Value.vstr "")]),
       ("accelerate", Value.vdict [("framework_dir", Value.vstr "")]),
       ("minuit2", Value.vdict [("include_dir", Value.vstr ""),
                                ("library_dir", Value.vstr "")]),
       ("grace", Value.vdict [("include_dir", Value.vstr ""),
                              ("library_dir", Value.vstr "")])]),
   ("compiler", Value.vdict
      [("c_compiler", Value.vstr ""),
       ("cxx_compiler", Value.vstr ""),
       ("cxx_flags", Value.vlist [])])]

/-- `SigmondConfig._load_config` (lines 32-69), with the file system
abstracted away: `fileLayer = some t` means a candidate config file was
found and parsed successfully to the tree `t`; `fileLayer = none` covers
every other outcome (no file, parse failure, `tomllib` unavailable), in
which case the built-in defaults are returned.  A successfully parsed
tree is returned as-is: the code performs no merge with the defaults. -/
def load_config (fileLayer : Option Dict) (ncpu : Nat) : Dict :=
  match fileLayer with
  | some t => t
  | none => default_config ncpu

/-- Does the environment value trigger a boolean override?
`os.environ.get(var, '').lower() in ('1', 'true', 'yes')`. -/
def envTruthy (env : Env) (var : String) : Bool :=
  strLower ((envGet env var).getD "") ∈ (["1", "true", "yes"] : List String)

/-- `self.config['build'][k] = v`: indexes `config['build']` (raising
`KeyError` when absent, `TypeError` when not a dict) and assigns. -/
def setBuildKey (cfg : Dict) (k : String) (v : Value) : Option Dict :=
  match dlookup cfg "build" with
  | some (Value.vdict b) => some (dset cfg "build" (Value.vdict (dset b k v)))
  | _ => none

/-- `SigmondConfig._apply_env_overrides` (lines 106-118).  Each of the
three boolean overrides fires only when its variable holds a truthy
token; `DEFAULTENSFILE` fires on any non-empty value. -/
def apply_env_overrides (env : Env) (cfg : Dict) : Option Dict := do
  let c1 ← if envTruthy env "SIGMOND_SKIP_QUERY" then
             setBuildKey cfg "skip_query" (Value.vbool true)
           else some cfg
  let c2 ← if envTruthy env "SIGMOND_SKIP_BATCH" then
             setBuildKey c1 "skip_batch" (Value.vbool true)
           else some c1
  let c3 ← if envTruthy env "SIGMOND_VERBOSE" then
             setBuildKey c2 "verbose" (Value.vbool true)
           else some c2
  match envGet env "DEFAULTENSFILE" with
  | some s =>
      if s.isEmpty then some c3
      else setBuildKey c3 "default_ensembles_file" (Value.vstr s)
  | none => some c3

/-- Python `v in ['a', 'b', ...]` where the list holds strings: only a
string value can compare equal to a member. -/
def pyInStr (v : Value) (ss : List String) : Bool :=
  match v with
  | Value.vstr s => ss.contains s
  | _ => false

/-- `isinstance(build_jobs, int) and build_jobs >= 0`.  Python `bool` is
a subclass of `int` with `True = 1`, `False = 0`, so both booleans pass
the non-negativity test. -/
def validJobs : Value → Bool
  | Value.vint n => decide (0 ≤ n)
  | Value.vbool _ => true
  | _ => false

/-- The error strings of `_validate_config` (lines 128-146). -/
def precisionErr (v : Value) : String :=
  "Invalid precision '" ++ pyStr v ++ "'. Must be 'double' or 'single'."

def numbersErr (v : Value) : String :=
  "Invalid numbers type '" ++ pyStr v ++ "'. Must be 'complex' or 'real'."

def formatErr (v : Value) : String :=
  "Invalid file format '" ++ pyStr v ++ "'. Must be 'hdf5' or 'fstream'."

def jobsErr (v : Value) : String :=
  "Invalid build_jobs '" ++ pyStr v ++ "'. Must be a non-negative integer."

/-- The list of fatal violations `_validate_config` collects, in check
order (precision, numbers, file format, build_jobs).  Every field is
read with a defaulted `.get`, so a missing key validates against the
schema default.  The remaining checks of the function only produce
non-fatal warnings and never contribute here. -/
def validationErrors (cfg : Dict) : List String :=
  let build_config := match dgetD cfg "build" (Value.vdict []) with
    | Value.vdict b => b
    | _ => []
  let precision := dgetD build_config "precision" (Value.vstr "double")
  let numbers := dgetD build_config "numbers" (Value.vstr "complex")
  let file_format := dgetD build_config "default_file_format" (Value.vstr "hdf5")
  let build_jobs := dgetD build_config "build_jobs" (Value.vint 0)
  (if pyInStr precision ["double", "single"] then []
   else [precisionErr precision]) ++
  (if pyInStr numbers ["complex", "real"] then []
   else [numbersErr numbers]) ++
  (if pyInStr file_format ["hdf5", "fstream"] then []
   else [formatErr file_format]) ++
  (if validJobs build_jobs then [] else [jobsErr build_jobs])

/-- The aggregated `ValueError` message raised when any violation was
collected: every error is reported at once. -/
def validationMsg (errors : List String) : String :=
  "Configuration validation failed:\n" ++
    String.intercalate "\n" (errors.map (fun e => "  - " ++ e))

/-- `SigmondConfig._validate_config` (lines 120-171): raises `ValueError`
with the aggregated message iff the collected error list is non-empty.
(The warnings the function also gathers only print in verbose mode and
never abort; they are not modelled.) -/
def validate_config (cfg : Dict) : Except String Unit :=
  match validationErrors cfg with
  | [] => Except.ok ()
  | errors => Except.error (validationMsg errors)

/-- `SigmondConfig.__init__` (lines 27-30): load, apply environment
overrides, validate.  A `KeyError` while applying overrides or a
`ValueError` from validation propagates; otherwise the resolved
configuration snapshot is the constructed object's state. -/
def initConfig (fileLayer : Option Dict) (env : Env) (ncpu : Nat) :
    Except String Dict :=
  let cfg := load_config fileLayer ncpu
  match apply_env_overrides env cfg with
  | none => Except.error "KeyError"
  | some cfg2 =>
      match validate_config cfg2 with
      | Except.error e => Except.error e
      | Except.ok _ => Except.ok cfg2

end Configure

/-- `self.config['build']` followed by string-key indexing: raises
(`none`) when the key is absent or the value is not a dictionary. -/
def buildDict (cfg : Dict) : Option Dict :=
  match dlookup cfg "build" with
  | some (Value.vdict b) => some b
  | _ => none

/-- `self.config['libraries']` used with `in` / indexing as a dict. -/
def libsDict (cfg : Dict) : Option Dict :=
  match dlookup cfg "libraries" with
  | some (Value.vdict l) => some l
  | _ => none

namespace Configure

/-- `get_cmake_args` lines 177-186: the three core definitions.  Each
reads `config['build'][key].lower()`, so a missing key or a non-string
value raises. -/
def coreArgs (b : Dict) : Option (List String) := do
  let precision ← pyLower (← dlookup b "precision")
  let numbers ← pyLower (← dlookup b "numbers")
  let file_format ← pyLower (← dlookup b "default_file_format")
  pure ["-DPRECISION=" ++ precision, "-DNUMBERS=" ++ numbers,
        "-DDEFAULT_FILE_FORMAT=" ++ file_format]

/-- Lines 188-196: the four boolean feature toggles, emitted in a fixed
order when truthy. -/
def toggleArgs (b : Dict) : Option (List String) := do
  let skip_query ← dlookup b "skip_query"
  let skip_batch ← dlookup b "skip_batch"
  let enable_minuit ← dlookup b "enable_minuit"
  let enable_grace ← dlookup b "enable_grace"
  pure ((if skip_query.truthy then ["-DSKIP_SIGMOND_QUERY=ON"] else []) ++
        (if skip_batch.truthy then ["-DSKIP_SIGMOND_BATCH=ON"] else []) ++
        (if enable_minuit.truthy then ["-DENABLE_MINUIT=ON"] else []) ++
        (if enable_grace.truthy then ["-DENABLE_GRACE=ON"] else []))

/-- Lines 198-201: verbose-mode flags. -/
def verboseArgs (b : Dict) : Option (List String) := do
  let verbose ← dlookup b "verbose"
  pure (if verbose.truthy then
          ["-DSIGMOND_VERBOSE=ON", "-DCMAKE_FIND_DEBUG_MODE=ON"]
        else [])

/-- Lines 203-207: the testing toggle always emits ON or OFF. -/
def testingArgs (b : Dict) : Option (List String) := do
  let enable_testing ← dlookup b "enable_testing"
  pure (if enable_testing.truthy then ["-DENABLE_TESTING=ON"]
        else ["-DENABLE_TESTING=OFF"])

/-- Lines 209-213: custom install directories (sparse: only if truthy). -/
def installArgs (b : Dict) : Option (List String) := do
  let batch ← dlookup b "batch_install_dir"
  let query ← dlookup b "query_install_dir"
  pure ((if batch.truthy then
           ["-DSIGMOND_BATCH_INSTALL_DIR=" ++ pyStr batch] else []) ++
        (if query.truthy then
           ["-DSIGMOND_QUERY_INSTALL_DIR=" ++ pyStr query] else []))

/-- Lines 215-218: default ensembles file, read with a defaulted `.get`,
emitted only when truthy. -/
def ensArgs (b : Dict) : List String :=
  let default_ens_file := dgetD b "default_ensembles_file" (Value.vstr "")
  if default_ens_file.truthy then
    ["-DDEFAULTENSFILE=" ++ pyStr default_ens_file]
  else []

/-- Lines 240-246: value coercion for dict-style extra definitions —
booleans to ON/OFF, lists to a semicolon-joined string, everything else
to its `str` form.  (Python checks `bool` before `list`.) -/
def coerceVal : Value → String
  | Value.vbool bv => if bv then "ON" else "OFF"
  | Value.vlist l => String.intercalate ";" (l.map pyStr)
  | v => pyStr v

/-- Lines 228-233: normalize a string entry — `"-DFOO=BAR"` passes
through, anything else gets a `-D` put in front of its stripped form. -/
def normStrEntry (s : String) : String :=
  let s2 := strTrim s
  if strStartsWith s2 "-D" then s2 else "-D" ++ s2

/-- The loop of lines 226-235 on a list-valued
`extra_cmake_definitions`: string entries are appended to `args`
immediately, dict entries have their items collected into `items` for
the second loop, and entries of any other type are silently skipped. -/
def extraLoop : List Value → List String → List (String × Value) →
    List String × List (String × Value)
  | [], args, items => (args, items)
  | Value.vstr s :: rest, args, items =>
      extraLoop rest (args ++ [normStrEntry s]) items
  | Value.vdict d :: rest, args, items => extraLoop rest args (items ++ d)
  | _ :: rest, args, items => extraLoop rest args items

/-- Lines 220-247: the extra-definitions section.  A dict value renders
its items directly; a list value runs the loop and then appends the
collected dict items; any other type contributes nothing. -/
def extraArgs (b : Dict) : List String :=
  match dgetD b "extra_cmake_definitions" (Value.vlist []) with
  | Value.vdict d => d.map (fun kv => "-D" ++ kv.1 ++ "=" ++ coerceVal kv.2)
  | Value.vlist entries =>
      let acc := extraLoop entries [] []
      acc.1 ++ acc.2.map (fun kv => "-D" ++ kv.1 ++ "=" ++ coerceVal kv.2)
  | _ => []

/-- The repeated pattern `if lc.get(key): args.append(f'-DFLAG={lc[key]}')`
of the library and compiler sections. -/
def pathArg (lc : Dict) (key flag : String) : List String :=
  match dlookup lc key with
  | some v => if v.truthy then ["-D" ++ flag ++ "=" ++ pyStr v] else []
  | none => []

/-- Lines 249-253: HDF5 root directory. -/
def hdf5Args (libs : Dict) : Option (List String) :=
  match dlookup libs "hdf5" with
  | none => some []
  | some (Value.vdict lc) => some (pathArg lc "root_dir" "HDF5_DIR")
  | some _ => none

/-- Lines 255-259: BLAS manual library path. -/
def blasArgs (libs : Dict) : Option (List String) :=
  match dlookup libs "blas" with
  | none => some []
  | some (Value.vdict lc) => some (pathArg lc "library_path" "BLAS_LIBRARIES")
  | some _ => none

/-- Lines 261-265: LAPACK manual library path. -/
def lapackArgs (libs : Dict) : Option (List String) :=
  match dlookup libs "lapack" with
  | none => some []
  | some (Value.vdict lc) => some (pathArg lc "library_path" "LAPACK_LIBRARIES")
  | some _ => none

/-- Lines 268-273: Minuit2 paths, gated on the enable flag (Python `and`
short-circuits, so a falsy flag skips the block entirely). -/
def minuitArgs (b libs : Dict) : Option (List String) := do
  let enable_minuit ← dlookup b "enable_minuit"
  if enable_minuit.truthy then
    match dlookup libs "minuit2" with
    | none => pure []
    | some (Value.vdict lc) =>
        pure (pathArg lc "include_dir" "SIGMOND_MINUIT2_INCLUDE_DIR" ++
              pathArg lc "library_dir" "SIGMOND_MINUIT2_LIBRARY_DIR")
    | some _ => none
  else pure []

/-- Lines 275-280: Grace paths, gated on the enable flag. -/
def graceArgs (b libs : Dict) : Option (List String) := do
  let enable_grace ← dlookup b "enable_grace"
  if enable_grace.truthy then
    match dlookup libs "grace" with
    | none => pure []
    | some (Value.vdict lc) =>
        pure (pathArg lc "include_dir" "SIGMOND_GRACE_INCLUDE_DIR" ++
              pathArg lc "library_dir" "SIGMOND_GRACE_LIBRARY_DIR")
    | some _ => none
  else pure []

/-- Lines 282-286: Accelerate framework directory. -/
def accelArgs (libs : Dict) : Option (List String) :=
  match dlookup libs "accelerate" with
  | none => some []
  | some (Value.vdict lc) =>
      some (pathArg lc "framework_dir" "SIGMOND_ACCELERATE_FRAMEWORK_DIR")
  | some _ => none

/-- Lines 288-294: explicit compiler executables, last. -/
def compilerArgs (cfg : Dict) : Option (List String) :=
  match dlookup cfg "compiler" with
  | none => some []
  | some (Value.vdict cc) =>
      some (pathArg cc "c_compiler" "CMAKE_C_COMPILER" ++
            pathArg cc "cxx_compiler" "CMAKE_CXX_COMPILER")
  | some _ => none

/-- `SigmondConfig.get_cmake_args` (lines 173-296): the full flag
vector, the concatenation of the sections in source order. -/
def get_cmake_args (cfg : Dict) : Option (List String) := do
  let b ← buildDict cfg
  let core ← coreArgs b
  let toggles ← toggleArgs b
  let verbose ← verboseArgs b
  let testing ← testingArgs b
  let install ← installArgs b
  let libs ← libsDict cfg
  let hdf5 ← hdf5Args libs
  let blas ← blasArgs libs
  let lapack ← lapackArgs libs
  let minuit ← minuitArgs b libs
  let grace ← graceArgs b libs
  let accel ← accelArgs libs
  let comps ← compilerArgs cfg
  pure (core ++ toggles ++ verbose ++ testing ++ install ++
        ensArgs b ++ extraArgs b ++
        hdf5 ++ blas ++ lapack ++ minuit ++ grace ++ accel ++ comps)

/-- `'=' in body` then `body.split('=', 1)`: `none` when `body` holds no
equals sign. -/
def splitEqAux : List Char → List Char → Option (String × String)
  | [], _ => none
  | c :: rest, acc =>
      if c = '=' then some (String.mk acc.reverse, String.mk rest)
      else splitEqAux rest (c :: acc)

def splitEq1 (s : String) : Option (String × String) :=
  splitEqAux s.data []

/-- `write_cache._ctype` (lines 458-466): type-tag classification with
fixed precedence — boolean tokens, then compiler/executable keys, then
path-like key suffixes, else plain string. -/
def ctype (k v : String) : String :=
  let vv := strUpper v
  if vv = "ON" ∨ vv = "OFF" ∨ vv = "TRUE" ∨ vv = "FALSE" then "BOOL"
  else if strEndsWith k "_COMPILER" ∨ k = "PYTHON_EXECUTABLE" then "FILEPATH"
  else if strEndsWith k "_DIR" ∨ strEndsWith k "_ROOT" ∨
          strEndsWith k "_PREFIX_PATH" ∨ k = "CMAKE_PREFIX_PATH" then "PATH"
  else "STRING"

/-- One character of `_q`'s rewriting. -/
def sanChar (c : Char) : List Char :=
  if c = '\\' then ['/']
  else if c = '"' then ['\\', '"']
  else [c]

/-- `write_cache._q` (lines 468-469):
`s.replace('\\', '/').replace('"', '\\"')`.  Both patterns are single
characters and the first replacement introduces no backslash, so the two
sequential scans equal this character-wise rewrite. -/
def qsan (s : String) : String :=
  String.mk (s.data.flatMap sanChar)

/-- `write_cache` step 1 (lines 414-420): the base cache variables. -/
def baseCacheVars : List (String × String) :=
  [("CMAKE_BUILD_TYPE", "Release"),
   ("CMAKE_EXPORT_COMPILE_COMMANDS", "ON"),
   ("CMAKE_CXX_STANDARD", "17"),
   ("CMAKE_CXX_STANDARD_REQUIRED", "ON"),
   ("CMAKE_CXX_EXTENSIONS", "OFF")]

/-- Step 2 (lines 422-431): conda-derived entries, added only when
`CONDA_PREFIX` is non-empty (`conda` holds its value, `""` = unset). -/
def condaCacheVars (conda : String) (vars : List (String × String)) :
    List (String × String) :=
  if conda.isEmpty then vars
  else
    dset (dset (dset (dset vars
      "CMAKE_PREFIX_PATH" conda)
      "CMAKE_BUILD_RPATH" (conda ++ "/lib"))
      "HDF5_ROOT" conda)
      "PYTHON_EXECUTABLE" (conda ++ "/bin/python")

/-- Step 3 (lines 433-441): fold one `-D` flag into the cache-variable
dictionary. -/
def foldArg (vars : List (String × String)) (arg : String) :
    List (String × String) :=
  if strStartsWith arg "-D" then
    let body := strDrop arg 2
    match splitEq1 body with
    | some kv => dset vars kv.1 kv.2
    | none => dset vars body "ON"
  else vars

/-- Step 4 (lines 443-455): compiler handling.  `clear` unsets both
compiler variables; otherwise `config['compiler']` is indexed directly
(raising when absent or not a dict) and a compiler path is recorded only
when truthy and existing on disk (`exists?` models `os.path.exists`; a
truthy non-string value would make that call raise). -/
def compilerCacheVars (cfg : Dict) (exists? : String → Bool) (clear : Bool)
    (vars : List (String × String)) : Option (List (String × String)) :=
  if clear then
    some (dset (dset vars "CMAKE_C_COMPILER" "") "CMAKE_CXX_COMPILER" "")
  else do
    let cc ← match dlookup cfg "compiler" with
             | some (Value.vdict cc) => some cc
             | _ => none
    let cV := dgetD cc "c_compiler" (Value.vstr "")
    let v1 ← if cV.truthy then
               match cV with
               | Value.vstr s =>
                   some (if exists? s then dset vars "CMAKE_C_COMPILER" s
                         else vars)
               | _ => none
             else some vars
    let xV := dgetD cc "cxx_compiler" (Value.vstr "")
    if xV.truthy then
      match xV with
      | Value.vstr s =>
          some (if exists? s then dset v1 "CMAKE_CXX_COMPILER" s else v1)
      | _ => none
    else some v1

/-- Step 5 (lines 471-474): one rendered cache statement.  (Every value
stored in the cache dictionary is already a string, so `str(v)` is the
identity here.) -/
def cacheLine (kv : String × String) : String :=
  "set(" ++ kv.1 ++ " \"" ++ qsan kv.2 ++ "\" CACHE " ++
    ctype kv.1 kv.2 ++ " \"\")"

/-- The full text `write_cache` (lines 408-484) writes: base variables,
conda entries, folded `-D` flags, compiler handling, then one `set(...)`
line per entry joined by newlines with a trailing newline. -/
def cacheText (conda : String) (exists? : String → Bool) (cfg : Dict)
    (clear : Bool) : Option String := do
  let vars0 := condaCacheVars conda baseCacheVars
  let args ← get_cmake_args cfg
  let vars1 := args.foldl foldArg vars0
  let vars2 ← compilerCacheVars cfg exists? clear vars1
  pure (String.intercalate "\n" (vars2.map cacheLine) ++ "\n")

/-- `Path.write_text` on a file-system snapshot (path ↦ contents): the
target file is overwritten wholesale. -/
def writeText (fs : String → Option String) (path text : String) :
    String → Option String :=
  fun p => if p = path then some text else fs p

/-- `SigmondConfig.get_precision` (lines 518-520): a direct, undefaulted
index into the merged tree. -/
def get_precision (cfg : Dict) : Option Value := do
  let b ← buildDict cfg
  dlookup b "precision"

end Configure

namespace ConfigReader

/-- Python `list.remove(x)`: drop the first occurrence.  (Python raises
`ValueError` when `x` is absent; every call site below removes an
element that is present, so the total model agrees with the code.) -/
def pyRemove : List String → String → List String
  | [], _ => []
  | y :: ys, x => if y = x then ys else y :: pyRemove ys x

/-- `SigmondConfig.get_compiler_definitions` (src/config_reader.py lines
219-258): one definition per enumeration, the five always-added tokens,
then conditional removal of the three disable flags. -/
def get_compiler_definitions (cfg : Dict) : Option (List String) := do
  let b ← buildDict cfg
  let precision ← pyLower (← dlookup b "precision")
  let numbers ← pyLower (← dlookup b "numbers")
  let file_format ← pyLower (← dlookup b "default_file_format")
  let enable_minuit ← dlookup b "enable_minuit"
  let enable_grace ← dlookup b "enable_grace"
  let skip_batch ← dlookup b "skip_batch"
  let defs :=
    [if precision = "single" then "SINGLEPRECISION" else "DOUBLEPRECISION",
     if numbers = "real" then "REALNUMBERS" else "COMPLEXNUMBERS",
     if file_format = "fstream" then "DEFAULT_FSTREAM" else "DEFAULT_HDF5"] ++
    ["NOGRACE", "NO_MINUIT", "NOXML", "HDF5", "LAPACK"]
  let defs := if enable_minuit.truthy then pyRemove defs "NO_MINUIT" else defs
  let defs := if enable_grace.truthy then pyRemove defs "NOGRACE" else defs
  let defs := if !skip_batch.truthy then pyRemove defs "NOXML" else defs
  pure defs

/-- `config_reader.SigmondConfig._validate_config` (src/config_reader.py
lines 106-157): its fatal checks, check order and aggregated message are
character-identical to configure.py's `_validate_config` (the two files
differ only in which library keys feed the non-fatal warnings), so the
model is shared. -/
def validate_config (cfg : Dict) : Except String Unit :=
  Configure.validate_config cfg

end ConfigReader

namespace Configure

/-- The effect of `_apply_env_overrides` on the build section alone
(proved below to characterize `apply_env_overrides` whenever the tree
has a dictionary-valued `build` entry). -/
def envBuild (env : Env) (b : Dict) : Dict :=
  let b1 := if envTruthy env "SIGMOND_SKIP_QUERY" then
              dset b "skip_query" (Value.vbool true) else b
  let b2 := if envTruthy env "SIGMOND_SKIP_BATCH" then
              dset b1 "skip_batch" (Value.vbool true) else b1
  let b3 := if envTruthy env "SIGMOND_VERBOSE" then
              dset b2 "verbose" (Value.vbool true) else b2
  match envGet env "DEFAULTENSFILE" with
  | some s =>
      if s.isEmpty then b3
      else dset b3 "default_ensembles_file" (Value.vstr s)
  | none => b3

end Configure

/-- The keys the environment layer can touch (the three boolean build
flags and the default ensembles file). -/
def envOverridableKeys : List String :=
  ["skip_query", "skip_batch", "verbose", "default_ensembles_file"]

/-- The (environment variable, build key) pairs of the three boolean
environment overrides. -/
def envFlagPairs : List (String × String) :=
  [("SIGMOND_SKIP_QUERY", "skip_query"),
   ("SIGMOND_SKIP_BATCH", "skip_batch"),
   ("SIGMOND_VERBOSE", "verbose")]

/-- `s` starts with the text `pre`. -/
def hasPre (pre s : String) : Prop := ∃ rest, s = pre ++ rest

/-- Every element of `l` starts with the text `pre`. -/
def allPre (pre : String) (l : List String) : Prop := ∀ s ∈ l, hasPre pre s

/-- Modelled from the claim C3's words: the extra-definitions list
"rendered verbatim in input order with normalization" — every entry is
normalized in place, so a key/value pair appearing before a string entry
would render before it. -/
def extraArgsClaim (entries : List Value) : List String :=
  entries.flatMap (fun e =>
    match e with
    | Value.vstr s => [Configure.normStrEntry s]
    | Value.vdict d =>
        d.map (fun kv => "-D" ++ kv.1 ++ "=" ++ Configure.coerceVal kv.2)
    | _ => [])

/-- C1's counterexample file layer: a successfully parsed config file
whose build section is empty. -/
def emptyBuildTree : Dict := [("build", Value.vdict [])]

/-- C9's merged tree: a successfully parsed file with all three
sections present but every schema key omitted. -/
def bareSectionsTree : Dict :=
  [("build", Value.vdict []), ("libraries", Value.vdict []),
   ("compiler", Value.vdict [])]

/-- C3's counterexample input: a key/value-pair entry placed before a
bare-name entry. -/
def dictFirstExtra : Dict :=
  [("extra_cmake_definitions",
    Value.vlist [Value.vdict [("BAZ", Value.vbool true)], Value.vstr "FOO"])]

/-- The extra-definitions scenario input `["FOO", "BAR=2", {"BAZ": true}]`. -/
def fooBarBazExtra : Dict :=
  [("extra_cmake_definitions",
    Value.vlist [Value.vstr "FOO", Value.vstr "BAR=2",
                 Value.vdict [("BAZ", Value.vbool true)]])]

/-- C4's two-violation tree, parameterized by the two bogus values. -/
def twoBogusTree (p f : String) : Dict :=
  [("build", Value.vdict [("precision", Value.vstr p),
                          ("default_file_format", Value.vstr f)])]

/-- The flag vector the built-in defaults render: the three core
definitions, the testing toggle, and the default-data-file definition
(whose built-in default path is non-empty). -/
def defaultArgsList : List String :=
  ["-DPRECISION=double", "-DNUMBERS=complex", "-DDEFAULT_FILE_FORMAT=hdf5",
   "-DENABLE_TESTING=ON",
   "-DDEFAULTENSFILE=/Users/johnmeneghini/Documents/LatticeQCD/spectrums/software/sigmond/ensembles.xml"]

/-! ## Dictionary lemmas -/

theorem dlookup_dset_self {α : Type} (d : List (String × α)) (k : String)
    (v : α) : dlookup (dset d k v) k = some v := by
  induction d with
  | nil => simp [dset, dlookup]
  | cons hd tl ih =>
      obtain ⟨k1, v1⟩ := hd
      by_cases hk : k1 = k
      · simp [dset, hk, dlookup]
      · simp [dset, hk, dlookup, ih]

theorem dlookup_dset_ne {α : Type} (d : List (String × α)) (k k2 : String)
    (v : α) (h : k2 ≠ k) : dlookup (dset d k v) k2 = dlookup d k2 := by
  induction d with
  | nil => simp [dset, dlookup, Ne.symm h]
  | cons hd tl ih =>
      obtain ⟨k1, v1⟩ := hd
      by_cases hk : k1 = k
      · subst hk; simp [dset, dlookup, Ne.symm h]
      · simp [dset, hk, dlookup, ih]

theorem dset_lookup_eq {α : Type} (d : List (String × α)) (k : String)
    (v : α) (h : dlookup d k = some v) : dset d k v = d := by
  induction d with
  | nil => simp [dlookup] at h
  | cons hd tl ih =>
      obtain ⟨k1, v1⟩ := hd
      by_cases hk : k1 = k
      · subst hk
        simp [dlookup] at h
        simp [dset, h]
      · simp [dlookup, hk] at h
        simp [dset, hk, ih h]

theorem dset_dset {α : Type} (d : List (String × α)) (k : String)
    (v w : α) : dset (dset d k v) k w = dset d k w := by
  induction d with
  | nil => simp [dset]
  | cons hd tl ih =>
      obtain ⟨k1, v1⟩ := hd
      by_cases hk : k1 = k
      · simp [dset, hk]
      · simp [dset, hk, ih]

/-! ## Characterization of the environment-override layer -/

theorem buildStep (cfg b : Dict) (c : Bool) (k : String) (v : Value)
    (h : dlookup cfg "build" = some (Value.vdict b)) :
    (if c then Configure.setBuildKey cfg k v else some cfg) =
      some (dset cfg "build" (Value.vdict (if c then dset b k v else b))) := by
  cases c with
  | true => simp [Configure.setBuildKey, h]
  | false => simp [dset_lookup_eq cfg "build" (Value.vdict b) h]

theorem apply_env_char (env : Env) (cfg b : Dict)
    (h : dlookup cfg "build" = some (Value.vdict b)) :
    Configure.apply_env_overrides env cfg =
      some (dset cfg "build" (Value.vdict (Configure.envBuild env b))) := by
  unfold Configure.apply_env_overrides Configure.envBuild
  by_cases t1 : Configure.envTruthy env "SIGMOND_SKIP_QUERY" <;>
  by_cases t2 : Configure.envTruthy env "SIGMOND_SKIP_BATCH" <;>
  by_cases t3 : Configure.envTruthy env "SIGMOND_VERBOSE" <;>
  rcases hE : envGet env "DEFAULTENSFILE" with _ | s <;>
  simp [t1, t2, t3, hE, Configure.setBuildKey, h, dlookup_dset_self,
        dset_dset, dset_lookup_eq cfg "build" (Value.vdict b) h] <;>
  by_cases hs : s.isEmpty <;>
  simp [hs, dlookup_dset_self, dset_dset,
        dset_lookup_eq cfg "build" (Value.vdict b) h]

theorem envBuild_flag (env : Env) (b : Dict) (var k : String)
    (hmem : (var, k) ∈ envFlagPairs) :
    dlookup (Configure.envBuild env b) k =
      if Configure.envTruthy env var then some (Value.vbool true)
      else dlookup b k := by
  simp only [envFlagPairs, List.mem_cons, List.mem_singleton] at hmem
  unfold Configure.envBuild
  rcases hmem with h | h | h | h <;> try (cases h)
  all_goals (
    by_cases t1 : Configure.envTruthy env "SIGMOND_SKIP_QUERY" <;>
    by_cases t2 : Configure.envTruthy env "SIGMOND_SKIP_BATCH" <;>
    by_cases t3 : Configure.envTruthy env "SIGMOND_VERBOSE" <;>
    rcases hE : envGet env "DEFAULTENSFILE" with _ | s <;>
    simp [t1, t2, t3, hE, dlookup_dset_self, dlookup_dset_ne] <;>
    by_cases hs : s.isEmpty <;>
    simp [hs, dlookup_dset_self, dlookup_dset_ne])

theorem envBuild_other (env : Env) (b : Dict) (k : String)
    (hk : k ∉ envOverridableKeys) :
    dlookup (Configure.envBuild env b) k = dlookup b k := by
  simp only [envOverridableKeys, List.mem_cons, List.mem_singleton,
    not_or] at hk
  obtain ⟨h1, h2, h3, h4⟩ := hk
  unfold Configure.envBuild
  by_cases t1 : Configure.envTruthy env "SIGMOND_SKIP_QUERY" <;>
  by_cases t2 : Configure.envTruthy env "SIGMOND_SKIP_BATCH" <;>
  by_cases t3 : Configure.envTruthy env "SIGMOND_VERBOSE" <;>
  rcases hE : envGet env "DEFAULTENSFILE" with _ | s <;>
  simp [t1, t2, t3, hE, dlookup_dset_ne, h1, h2, h3, h4] <;>
  by_cases hs : s.isEmpty <;>
  simp [hs, dlookup_dset_ne, h1, h2, h3, h4]

/-! ## Further helper lemmas -/

theorem extraLoop_eq (entries : List Value) (args : List String)
    (items : List (String × Value)) :
    Configure.extraLoop entries args items =
      (args ++ entries.flatMap (fun e =>
         match e with
         | Value.vstr s => [Configure.normStrEntry s]
         | _ => []),
       items ++ entries.flatMap (fun e =>
         match e with
         | Value.vdict d => d
         | _ => [])) := by
  induction entries generalizing args items with
  | nil => simp [Configure.extraLoop]
  | cons e rest ih =>
      cases e <;> simp [Configure.extraLoop, ih]

theorem validationMsg_two (e1 e2 : String) :
    Configure.validationMsg [e1, e2] =
      "Configuration validation failed:\n  - " ++ e1 ++ "\n  - " ++ e2 := by
  simp only [Configure.validationMsg, String.intercalate,
    String.intercalate.go, List.map_cons, List.map_nil, String.append_assoc]
  rfl

/-! ## Claims -/

/-- C1 counterexample: the claim says a key present in the defaults and
absent from a successfully loaded config file ends up with its default
value in the merged tree.  It does not: a successfully loaded file whose
build section omits `precision` resolves (with no env vars) to a merged
tree whose build section still has no `precision` entry at all, although
the defaults hold `'double'` there. -/
theorem c1_counterexample :
    Configure.initConfig (some emptyBuildTree) [] 1 =
      Except.ok emptyBuildTree ∧
    (∃ db, buildDict (Configure.default_config 1) = some db ∧
       dlookup db "precision" = some (Value.vstr "double")) ∧
    buildDict emptyBuildTree = some [] ∧
    dlookup ([] : Dict) "precision" = none :=
  ⟨rfl, ⟨_, rfl, rfl⟩, rfl, rfl⟩

/-- C1 (amended): resolution uses the built-in defaults only when no
config file loads (`load_config` returns a successfully parsed tree
as-is, with no merge), and a key set in the file layer keeps the file's
value through the environment layer unless it is one of the enumerated
env-overridable keys (`skip_query`, `skip_batch`, `verbose`,
`default_ensembles_file`). -/
theorem c1_amended_wholesale (t : Dict) (env : Env) (ncpu : Nat)
    (b : Dict) (k : String)
    (hb : dlookup t "build" = some (Value.vdict b))
    (hk : k ∉ envOverridableKeys) :
    Configure.load_config (some t) ncpu = t ∧
    Configure.load_config none ncpu = Configure.default_config ncpu ∧
    ∃ m, Configure.apply_env_overrides env t = some m ∧
      ∃ b2, dlookup m "build" = some (Value.vdict b2) ∧
        dlookup b2 k = dlookup b k := by
  refine ⟨rfl, rfl, _, apply_env_char env t b hb, _,
    dlookup_dset_self t "build" _, envBuild_other env b k hk⟩

/-- C1 witness: the amended statement applied to a file layer that sets
`precision = 'single'`, under `SIGMOND_VERBOSE=yes`. -/
theorem c1_amended_witness :
    Configure.load_config
        (some [("build", Value.vdict [("precision", Value.vstr "single")])]) 4 =
      [("build", Value.vdict [("precision", Value.vstr "single")])] ∧
    Configure.load_config none 4 = Configure.default_config 4 ∧
    ∃ m, Configure.apply_env_overrides [("SIGMOND_VERBOSE", "yes")]
        [("build", Value.vdict [("precision", Value.vstr "single")])] = some m ∧
      ∃ b2, dlookup m "build" = some (Value.vdict b2) ∧
        dlookup b2 "precision" =
          dlookup [("precision", Value.vstr "single")] "precision" :=
  c1_amended_wholesale _ [("SIGMOND_VERBOSE", "yes")] 4 _ "precision"
    rfl (by decide)

/-- C9: validation succeeding does not make the query facade total — a
successfully parsed tree whose sections are present but empty passes
validation (it checks with defaulted lookups), yet `get_precision` and
`get_cmake_args` index directly and raise `KeyError` (`none`) instead of
returning the defaults. -/
theorem c9_validation_not_total :
    Configure.validate_config bareSectionsTree = Except.ok () ∧
    Configure.get_precision bareSectionsTree = none ∧
    Configure.get_cmake_args bareSectionsTree = none :=
  ⟨rfl, rfl, rfl⟩

/-- C2 counterexample: with an empty file layer (defaults) and no env
vars, the merged build section holds `build_jobs = os.cpu_count() or 1`
(here 1), not 0, and the rendered flag vector holds a fifth definition,
the default-data-file flag, beyond the three core definitions and the
testing toggle (the built-in default path is non-empty). -/
theorem c2_counterexample :
    Configure.initConfig none [] 1 = Except.ok (Configure.default_config 1) ∧
    (∃ b, buildDict (Configure.default_config 1) = some b ∧
       dlookup b "build_jobs" = some (Value.vint 1)) ∧
    Value.vint 1 ≠ Value.vint 0 ∧
    Configure.get_cmake_args (Configure.default_config 1) =
      some defaultArgsList ∧
    (∃ a ∈ defaultArgsList,
       a ∉ (["-DPRECISION=double", "-DNUMBERS=complex",
             "-DDEFAULT_FILE_FORMAT=hdf5", "-DENABLE_TESTING=ON"] :
             List String)) := by
  refine ⟨rfl, ⟨_, rfl, rfl⟩, by simp, rfl, ?_⟩
  refine ⟨"-DDEFAULTENSFILE=/Users/johnmeneghini/Documents/LatticeQCD/spectrums/software/sigmond/ensembles.xml", by decide, by decide⟩

/-- C2 (amended): with an empty file layer and no env vars, resolution
succeeds and yields precision `double`, numbers `complex`, file format
`hdf5`, and `build_jobs = os.cpu_count() or 1` (a positive integer, not
0); the flag vector is exactly the three core definitions, the testing
toggle `-DENABLE_TESTING=ON`, and the default-data-file definition. -/
theorem c2_amended_defaults (ncpu : Nat) :
    Configure.initConfig none [] ncpu =
      Except.ok (Configure.default_config ncpu) ∧
    (∃ b, buildDict (Configure.default_config ncpu) = some b ∧
       dlookup b "precision" = some (Value.vstr "double") ∧
       dlookup b "numbers" = some (Value.vstr "complex") ∧
       dlookup b "default_file_format" = some (Value.vstr "hdf5") ∧
       dlookup b "build_jobs" =
         some (Value.vint (Int.ofNat (Configure.cpuOr1 ncpu)))) ∧
    0 < Configure.cpuOr1 ncpu ∧
    Configure.get_cmake_args (Configure.default_config ncpu) =
      some defaultArgsList := by
  refine ⟨?_, ⟨_, rfl, rfl, rfl, rfl, rfl⟩, ?_, rfl⟩
  · have happ : Configure.apply_env_overrides []
        (Configure.default_config ncpu) =
        some (Configure.default_config ncpu) := rfl
    have herr : Configure.validationErrors (Configure.default_config ncpu) =
        [] := by
      simp [Configure.validationErrors, Configure.default_config, dgetD,
        dlookup, Configure.validJobs, Configure.pyInStr, Int.ofNat_nonneg]
    unfold Configure.initConfig Configure.validate_config
    simp [Configure.load_config, happ, herr]
  · unfold Configure.cpuOr1
    split <;> omega

/-- C3 counterexample: the extra-definitions list is not rendered in
input order in general — a key/value-pair entry placed before a bare
name renders after it, because the loop defers all dict items to a
second pass. -/
theorem c3_counterexample :
    Configure.extraArgs dictFirstExtra = ["-DFOO", "-DBAZ=ON"] ∧
    extraArgsClaim
        [Value.vdict [("BAZ", Value.vbool true)], Value.vstr "FOO"] =
      ["-DBAZ=ON", "-DFOO"] ∧
    (["-DFOO", "-DBAZ=ON"] : List String) ≠ ["-DBAZ=ON", "-DFOO"] :=
  ⟨rfl, rfl, by decide⟩

/-- C3 (amended): string entries of the extra-definitions list render
first, in input order (a bare name gains a `-D`, a `KEY=VALUE` string is
emitted as given), and all key/value-pair entries render after them, in
input order, with values coerced (booleans to ON/OFF, sequences
semicolon-joined, everything else to its string form); in particular
`["FOO", "BAR=2", {"BAZ": true}]` renders as `-DFOO`, `-DBAR=2`,
`-DBAZ=ON`, in that order. -/
theorem c3_amended_extra_defs (b : Dict) (entries : List Value)
    (h : dgetD b "extra_cmake_definitions" (Value.vlist []) =
           Value.vlist entries) :
    Configure.extraArgs b =
      (entries.flatMap (fun e =>
         match e with
         | Value.vstr s => [Configure.normStrEntry s]
         | _ => [])) ++
      ((entries.flatMap (fun e =>
         match e with
         | Value.vdict d => d
         | _ => [])).map
        (fun kv => "-D" ++ kv.1 ++ "=" ++ Configure.coerceVal kv.2)) ∧
    Configure.extraArgs fooBarBazExtra = ["-DFOO", "-DBAR=2", "-DBAZ=ON"] ∧
    Configure.coerceVal (Value.vbool true) = "ON" ∧
    Configure.coerceVal (Value.vbool false) = "OFF" ∧
    (∀ l, Configure.coerceVal (Value.vlist l) =
       String.intercalate ";" (l.map pyStr)) := by
  refine ⟨?_, rfl, rfl, rfl, fun l => rfl⟩
  simp [Configure.extraArgs, h, extraLoop_eq]

/-- C3 witness: the amended statement applied to the scenario list
`["FOO", "BAR=2", {"BAZ": true}]`. -/
theorem c3_amended_witness :
    Configure.extraArgs fooBarBazExtra =
      (([Value.vstr "FOO", Value.vstr "BAR=2",
         Value.vdict [("BAZ", Value.vbool true)]].flatMap (fun e =>
         match e with
         | Value.vstr s => [Configure.normStrEntry s]
         | _ => [])) ++
       (([Value.vstr "FOO", Value.vstr "BAR=2",
          Value.vdict [("BAZ", Value.vbool true)]].flatMap (fun e =>
         match e with
         | Value.vdict d => d
         | _ => [])).map
        (fun kv => "-D" ++ kv.1 ++ "=" ++ Configure.coerceVal kv.2))) ∧
    Configure.extraArgs fooBarBazExtra = ["-DFOO", "-DBAR=2", "-DBAZ=ON"] :=
  ⟨(c3_amended_extra_defs fooBarBazExtra _ rfl).1,
   (c3_amended_extra_defs fooBarBazExtra
      [Value.vstr "FOO", Value.vstr "BAR=2",
       Value.vdict [("BAZ", Value.vbool true)]] rfl).2.1⟩

/-- C4: validation collects all fatal violations before reporting — a
tree carrying both an invalid precision and an invalid file format
raises one aggregated `ValueError` naming both fields and their values;
and construction (`__init__`) never returns a snapshot on any fatal
validation failure (whatever it returns has passed validation). -/
theorem c4_validation_aggregates :
    (∀ p f : String,
       p ∉ (["double", "single"] : List String) →
       f ∉ (["hdf5", "fstream"] : List String) →
       Configure.validate_config (twoBogusTree p f) =
         Except.error
           ("Configuration validation failed:\n  - Invalid precision '" ++
            (p ++ ("'. Must be 'double' or 'single'.\n  - Invalid file format '" ++
            (f ++ "'. Must be 'hdf5' or 'fstream'."))))) ∧
    (∀ (fileLayer : Option Dict) (env : Env) (ncpu : Nat) (d : Dict),
       Configure.initConfig fileLayer env ncpu = Except.ok d →
       Configure.validate_config d = Except.ok ()) := by
  constructor
  · intro p f hp hf
    have herr : Configure.validationErrors (twoBogusTree p f) =
        [Configure.precisionErr (Value.vstr p),
         Configure.formatErr (Value.vstr f)] := by
      simp [Configure.validationErrors, twoBogusTree, dgetD, dlookup,
        Configure.pyInStr, Configure.validJobs, hp, hf]
    unfold Configure.validate_config
    rw [herr]
    show Except.error (Configure.validationMsg
      [Configure.precisionErr (Value.vstr p),
       Configure.formatErr (Value.vstr f)]) = _
    rw [validationMsg_two]
    simp only [Configure.precisionErr, Configure.formatErr, pyStr,
      String.append_assoc]
    rfl
  · intro fileLayer env ncpu d h
    unfold Configure.initConfig at h
    rcases happ : Configure.apply_env_overrides env
        (Configure.load_config fileLayer ncpu) with _ | cfg2
    · simp only [happ] at h
      exact Except.noConfusion h
    · simp only [happ] at h
      rcases hv : Configure.validate_config cfg2 with e | u
      · simp only [hv] at h
        exact Except.noConfusion h
      · simp only [hv] at h
        cases h
        cases u
        exact hv

/-- C4 witness: the aggregation statement at `precision = "bogus"` and
`default_file_format = "bogus"`, and the no-snapshot statement at the
default resolution. -/
theorem c4_witness :
    Configure.validate_config (twoBogusTree "bogus" "bogus") =
      Except.error
        ("Configuration validation failed:\n  - Invalid precision '" ++
         ("bogus" ++ ("'. Must be 'double' or 'single'.\n  - Invalid file format '" ++
         ("bogus" ++ "'. Must be 'hdf5' or 'fstream'.")))) ∧
    Configure.validate_config (Configure.default_config 1) =
      Except.ok () :=
  ⟨c4_validation_aggregates.1 "bogus" "bogus" (by decide) (by decide),
   c4_validation_aggregates.2 none [] 1 (Configure.default_config 1) rfl⟩

/-- C5: the three environment boolean overrides are monotonic.  For each
override pair (variable, build key): the tokens `1`, `true`, `yes`
(case-insensitively) set the flag to true; any other value, including an
absent variable, leaves the prior value unchanged; a flag already true
is never turned false; and a value of `yes` turns a file-layer false
into true (first conjunct with the if-characterization). -/
theorem c5_env_overrides_monotonic (env : Env) (cfg b : Dict)
    (hb : dlookup cfg "build" = some (Value.vdict b)) :
    ∃ m, Configure.apply_env_overrides env cfg = some m ∧
      ∃ b2, dlookup m "build" = some (Value.vdict b2) ∧
        ∀ p ∈ envFlagPairs,
          (dlookup b2 p.2 =
             if Configure.envTruthy env p.1 then some (Value.vbool true)
             else dlookup b p.2) ∧
          (dlookup b p.2 = some (Value.vbool true) →
             dlookup b2 p.2 = some (Value.vbool true)) ∧
          (∀ s, envGet env p.1 = some s →
             strLower s ∈ (["1", "true", "yes"] : List String) →
             dlookup b2 p.2 = some (Value.vbool true)) ∧
          (envGet env p.1 = none → dlookup b2 p.2 = dlookup b p.2) ∧
          (∀ s, envGet env p.1 = some s →
             strLower s ∉ (["1", "true", "yes"] : List String) →
             dlookup b2 p.2 = dlookup b p.2) := by
  refine ⟨_, apply_env_char env cfg b hb, _,
    dlookup_dset_self cfg "build" _, ?_⟩
  intro p hp
  have hchar := envBuild_flag env b p.1 p.2 (by simpa using hp)
  refine ⟨hchar, ?_, ?_, ?_, ?_⟩
  · intro hprev
    rw [hchar]
    by_cases t : Configure.envTruthy env p.1 <;> simp [t, hprev]
  · intro s hs hmem
    have ht : Configure.envTruthy env p.1 = true := by
      simp [Configure.envTruthy, hs, hmem]
    rw [hchar, ht]
    simp
  · intro hnone
    have ht : Configure.envTruthy env p.1 = false := by
      simp [Configure.envTruthy, hnone, strLower]
    rw [hchar, ht]
    simp
  · intro s hs hmem
    have ht : Configure.envTruthy env p.1 = false := by
      simp [Configure.envTruthy, hs, hmem]
    rw [hchar, ht]
    simp

/-- C5 witness: `SIGMOND_SKIP_QUERY=yes` turns a file-layer
`skip_query = false` into true. -/
theorem c5_witness :
    ∃ m, Configure.apply_env_overrides [("SIGMOND_SKIP_QUERY", "yes")]
        [("build", Value.vdict [("skip_query", Value.vbool false)])] =
        some m ∧
      ∃ b2, dlookup m "build" = some (Value.vdict b2) ∧
        dlookup b2 "skip_query" = some (Value.vbool true) := by
  obtain ⟨m, hm, b2, hb2, hall⟩ :=
    c5_env_overrides_monotonic [("SIGMOND_SKIP_QUERY", "yes")]
      [("build", Value.vdict [("skip_query", Value.vbool false)])]
      [("skip_query", Value.vbool false)] rfl
  refine ⟨m, hm, b2, hb2, ?_⟩
  have h := (hall ("SIGMOND_SKIP_QUERY", "skip_query") (by decide)).1
  simpa using h

/-! ## C8 helpers -/

theorem ctype_eq (k v : String) :
    Configure.ctype k v =
      if strUpper v = "ON" ∨ strUpper v = "OFF" ∨ strUpper v = "TRUE" ∨
         strUpper v = "FALSE" then "BOOL"
      else if strEndsWith k "_COMPILER" ∨ k = "PYTHON_EXECUTABLE" then
        "FILEPATH"
      else if strEndsWith k "_DIR" ∨ strEndsWith k "_ROOT" ∨
              strEndsWith k "_PREFIX_PATH" ∨ k = "CMAKE_PREFIX_PATH" then
        "PATH"
      else "STRING" := rfl

theorem sanChar_no_backslash (c : Char) (hc : c ≠ '"') :
    '\\' ∉ Configure.sanChar c := by
  unfold Configure.sanChar
  by_cases h1 : c = '\\' <;> simp [h1, hc]
  intro h
  exact h1 h.symm

theorem sanChar_id (c : Char) (h1 : c ≠ '\\') (h2 : c ≠ '"') :
    Configure.sanChar c = [c] := by
  simp [Configure.sanChar, h1, h2]

theorem sanChar_count (c : Char) :
    (Configure.sanChar c).count '\\' = (if c = '"' then 1 else 0) := by
  unfold Configure.sanChar
  by_cases h1 : c = '\\' <;> by_cases h2 : c = '"' <;>
    simp_all [List.count_cons, List.count_nil]

theorem qsan_no_backslash (l : List Char) (h : '"' ∉ l) :
    '\\' ∉ l.flatMap Configure.sanChar := by
  induction l with
  | nil => simp
  | cons c cs ih =>
      simp only [List.flatMap_cons, List.mem_append, not_or]
      constructor
      · exact sanChar_no_backslash c (by intro hc; exact h (hc ▸ List.mem_cons_self c cs))
      · exact ih (fun hm => h (List.mem_cons_of_mem c hm))

theorem qsan_id (l : List Char) (h1 : '\\' ∉ l) (h2 : '"' ∉ l) :
    l.flatMap Configure.sanChar = l := by
  induction l with
  | nil => simp
  | cons c cs ih =>
      simp only [List.flatMap_cons]
      rw [sanChar_id c
        (by intro hc; exact h1 (hc ▸ List.mem_cons_self c cs))
        (by intro hc; exact h2 (hc ▸ List.mem_cons_self c cs))]
      simp only [List.singleton_append, List.cons.injEq, true_and]
      exact ih (fun hm => h1 (List.mem_cons_of_mem c hm))
        (fun hm => h2 (List.mem_cons_of_mem c hm))

theorem qsan_count (l : List Char) :
    (l.flatMap Configure.sanChar).count '\\' = l.count '"' := by
  induction l with
  | nil => simp
  | cons c cs ih =>
      simp only [List.flatMap_cons, List.count_append, ih,
        List.count_cons, sanChar_count]
      by_cases h : c = '"' <;> simp [h] <;> omega

/-- C8: the cache-file renderer classifies each entry's type tag with
fixed precedence — values reading ON/OFF/TRUE/FALSE (case-insensitively,
via upper-casing) tag as BOOL; otherwise compiler-executable keys tag as
FILEPATH; otherwise path-suffixed keys tag as PATH; otherwise STRING —
and the value sanitizer replaces every backslash with a forward slash
and escapes every embedded double quote: it satisfies the rewrite
equations `qsan "" = ""`, `qsan ('\\' s) = '/' (qsan s)`,
`qsan ('"' s) = '\\' '"' (qsan s)`, and `qsan (c s) = c (qsan s)` for
every other character, which determine it uniquely; consequently a
quote-free value comes out backslash-free, a clean value is unchanged,
and the output has exactly one backslash per embedded quote of the
input. -/
theorem c8_cache_type_tags_sanitize (k v : String) :
    (strUpper v = "ON" ∨ strUpper v = "OFF" ∨ strUpper v = "TRUE" ∨
       strUpper v = "FALSE" → Configure.ctype k v = "BOOL") ∧
    (¬(strUpper v = "ON" ∨ strUpper v = "OFF" ∨ strUpper v = "TRUE" ∨
       strUpper v = "FALSE") →
     (strEndsWith k "_COMPILER" = true ∨ k = "PYTHON_EXECUTABLE") →
       Configure.ctype k v = "FILEPATH") ∧
    (¬(strUpper v = "ON" ∨ strUpper v = "OFF" ∨ strUpper v = "TRUE" ∨
       strUpper v = "FALSE") →
     ¬(strEndsWith k "_COMPILER" = true ∨ k = "PYTHON_EXECUTABLE") →
     (strEndsWith k "_DIR" = true ∨ strEndsWith k "_ROOT" = true ∨
      strEndsWith k "_PREFIX_PATH" = true ∨ k = "CMAKE_PREFIX_PATH") →
       Configure.ctype k v = "PATH") ∧
    (¬(strUpper v = "ON" ∨ strUpper v = "OFF" ∨ strUpper v = "TRUE" ∨
       strUpper v = "FALSE") →
     ¬(strEndsWith k "_COMPILER" = true ∨ k = "PYTHON_EXECUTABLE") →
     ¬(strEndsWith k "_DIR" = true ∨ strEndsWith k "_ROOT" = true ∨
       strEndsWith k "_PREFIX_PATH" = true ∨ k = "CMAKE_PREFIX_PATH") →
       Configure.ctype k v = "STRING") ∧
    Configure.qsan "" = "" ∧
    (∀ s : String, Configure.qsan ("\\" ++ s) = "/" ++ Configure.qsan s) ∧
    (∀ s : String,
       Configure.qsan ("\"" ++ s) = "\\\"" ++ Configure.qsan s) ∧
    (∀ (c : Char) (s : String), c ≠ '\\' → c ≠ '"' →
       Configure.qsan (String.mk [c] ++ s) =
         String.mk [c] ++ Configure.qsan s) ∧
    ('"' ∉ v.data → '\\' ∉ (Configure.qsan v).data) ∧
    ('\\' ∉ v.data → '"' ∉ v.data → Configure.qsan v = v) ∧
    ((Configure.qsan v).data.count '\\' = v.data.count '"') := by
  refine ⟨?_, ?_, ?_, ?_, rfl, fun s => rfl, fun s => rfl, ?_, ?_, ?_, ?_⟩
  · intro h; rw [ctype_eq, if_pos h]
  · intro hnb hfp; rw [ctype_eq, if_neg hnb, if_pos hfp]
  · intro hnb hfp hp; rw [ctype_eq, if_neg hnb, if_neg hfp, if_pos hp]
  · intro hnb hfp hp
    rw [ctype_eq, if_neg hnb, if_neg hfp, if_neg hp]
  · intro c s h1 h2
    unfold Configure.qsan
    show String.mk ((c :: s.data).flatMap Configure.sanChar) = _
    rw [List.flatMap_cons, sanChar_id c h1 h2]
    rfl
  · intro h
    exact qsan_no_backslash v.data h
  · intro h1 h2
    show String.mk (v.data.flatMap Configure.sanChar) = v
    rw [qsan_id v.data h1 h2]
  · exact qsan_count v.data

/-- C8 witness: the classification and sanitizer facts at concrete
inputs — a compiler key tags FILEPATH, a boolean token tags BOOL, a
path-suffixed key tags PATH, a plain entry tags STRING; a leading
backslash becomes a forward slash, a leading quote becomes an escaped
quote, an ordinary character passes through, and a clean value is
unchanged by sanitization. -/
theorem c8_witness :
    Configure.ctype "CMAKE_CXX_COMPILER" "gcc" = "FILEPATH" ∧
    Configure.ctype "ENABLE_TESTING" "on" = "BOOL" ∧
    Configure.ctype "HDF5_ROOT" "/opt/conda" = "PATH" ∧
    Configure.ctype "PRECISION" "double" = "STRING" ∧
    Configure.qsan ("\\" ++ "x") = "/" ++ Configure.qsan "x" ∧
    Configure.qsan ("\"" ++ "x") = "\\\"" ++ Configure.qsan "x" ∧
    Configure.qsan (String.mk ['a'] ++ "bc") =
      String.mk ['a'] ++ Configure.qsan "bc" ∧
    Configure.qsan "/usr/bin/gcc" = "/usr/bin/gcc" :=
  ⟨(c8_cache_type_tags_sanitize "CMAKE_CXX_COMPILER" "gcc").2.1
     (by decide) (Or.inl (by decide)),
   (c8_cache_type_tags_sanitize "ENABLE_TESTING" "on").1 (by decide),
   (c8_cache_type_tags_sanitize "HDF5_ROOT" "/opt/conda").2.2.1
     (by decide) (by decide) (by decide),
   (c8_cache_type_tags_sanitize "PRECISION" "double").2.2.2.1
     (by decide) (by decide) (by decide),
   (c8_cache_type_tags_sanitize "x" "x").2.2.2.2.2.1 "x",
   (c8_cache_type_tags_sanitize "x" "x").2.2.2.2.2.2.1 "x",
   (c8_cache_type_tags_sanitize "x" "x").2.2.2.2.2.2.2.1 'a' "bc"
     (by decide) (by decide),
   (c8_cache_type_tags_sanitize "x" "/usr/bin/gcc").2.2.2.2.2.2.2.2.2.1
     (by decide) (by decide)⟩

/-- C10: for every validated configuration on which it succeeds,
`get_compiler_definitions` (config_reader.py) returns a list containing
exactly one of SINGLEPRECISION/DOUBLEPRECISION, exactly one of
REALNUMBERS/COMPLEXNUMBERS, exactly one of DEFAULT_FSTREAM/DEFAULT_HDF5,
and always HDF5 and LAPACK; NO_MINUIT is present iff `enable_minuit` is
falsy, NOGRACE iff `enable_grace` is falsy, and NOXML iff the batch
target is skipped. -/
theorem c10_compiler_definitions (cfg : Dict) (defs : List String)
    (b : Dict) (ps ns fs : String) (em eg sb : Value)
    (hval : ConfigReader.validate_config cfg = Except.ok ())
    (hb : buildDict cfg = some b)
    (hp : dlookup b "precision" = some (Value.vstr ps))
    (hn : dlookup b "numbers" = some (Value.vstr ns))
    (hf : dlookup b "default_file_format" = some (Value.vstr fs))
    (hem : dlookup b "enable_minuit" = some em)
    (heg : dlookup b "enable_grace" = some eg)
    (hsb : dlookup b "skip_batch" = some sb)
    (h : ConfigReader.get_compiler_definitions cfg = some defs) :
    (defs.count "SINGLEPRECISION" + defs.count "DOUBLEPRECISION" = 1) ∧
    (defs.count "REALNUMBERS" + defs.count "COMPLEXNUMBERS" = 1) ∧
    (defs.count "DEFAULT_FSTREAM" + defs.count "DEFAULT_HDF5" = 1) ∧
    "HDF5" ∈ defs ∧ "LAPACK" ∈ defs ∧
    ("NO_MINUIT" ∈ defs ↔ em.truthy = false) ∧
    ("NOGRACE" ∈ defs ↔ eg.truthy = false) ∧
    ("NOXML" ∈ defs ↔ sb.truthy = true) := by
  unfold ConfigReader.get_compiler_definitions at h
  rw [hb] at h
  simp only [Option.bind_eq_bind, Option.some_bind, hp, hn, hf, hem, heg,
    hsb, pyLower, Option.pure_def, Option.some.injEq] at h
  subst h
  by_cases h1 : strLower ps = "single" <;>
  by_cases h2 : strLower ns = "real" <;>
  by_cases h3 : strLower fs = "fstream" <;>
  cases h4 : em.truthy <;> cases h5 : eg.truthy <;> cases h6 : sb.truthy <;>
  simp only [h1, h2, h3, h4, h5, h6, if_true, if_false] <;>
  decide

/-- C10 witness: the statement at the built-in defaults, whose
definitions list is DOUBLEPRECISION, COMPLEXNUMBERS, DEFAULT_HDF5,
NOGRACE, NO_MINUIT, HDF5, LAPACK (NOXML removed: batch is built). -/
theorem c10_witness :
    ((["DOUBLEPRECISION", "COMPLEXNUMBERS", "DEFAULT_HDF5", "NOGRACE",
       "NO_MINUIT", "HDF5", "LAPACK"] : List String).count "SINGLEPRECISION" +
     (["DOUBLEPRECISION", "COMPLEXNUMBERS", "DEFAULT_HDF5", "NOGRACE",
       "NO_MINUIT", "HDF5", "LAPACK"] : List String).count "DOUBLEPRECISION" =
       1) ∧
    ((["DOUBLEPRECISION", "COMPLEXNUMBERS", "DEFAULT_HDF5", "NOGRACE",
       "NO_MINUIT", "HDF5", "LAPACK"] : List String).count "REALNUMBERS" +
     (["DOUBLEPRECISION", "COMPLEXNUMBERS", "DEFAULT_HDF5", "NOGRACE",
       "NO_MINUIT", "HDF5", "LAPACK"] : List String).count "COMPLEXNUMBERS" =
       1) ∧
    ((["DOUBLEPRECISION", "COMPLEXNUMBERS", "DEFAULT_HDF5", "NOGRACE",
       "NO_MINUIT", "HDF5", "LAPACK"] : List String).count "DEFAULT_FSTREAM" +
     (["DOUBLEPRECISION", "COMPLEXNUMBERS", "DEFAULT_HDF5", "NOGRACE",
       "NO_MINUIT", "HDF5", "LAPACK"] : List String).count "DEFAULT_HDF5" =
       1) ∧
    "HDF5" ∈ (["DOUBLEPRECISION", "COMPLEXNUMBERS", "DEFAULT_HDF5",
      "NOGRACE", "NO_MINUIT", "HDF5", "LAPACK"] : List String) ∧
    "LAPACK" ∈ (["DOUBLEPRECISION", "COMPLEXNUMBERS", "DEFAULT_HDF5",
      "NOGRACE", "NO_MINUIT", "HDF5", "LAPACK"] : List String) ∧
    ("NO_MINUIT" ∈ (["DOUBLEPRECISION", "COMPLEXNUMBERS", "DEFAULT_HDF5",
      "NOGRACE", "NO_MINUIT", "HDF5", "LAPACK"] : List String) ↔
       (Value.vbool false).truthy = false) ∧
    ("NOGRACE" ∈ (["DOUBLEPRECISION", "COMPLEXNUMBERS", "DEFAULT_HDF5",
      "NOGRACE", "NO_MINUIT", "HDF5", "LAPACK"] : List String) ↔
       (Value.vbool false).truthy = false) ∧
    ("NOXML" ∈ (["DOUBLEPRECISION", "COMPLEXNUMBERS", "DEFAULT_HDF5",
      "NOGRACE", "NO_MINUIT", "HDF5", "LAPACK"] : List String) ↔
       (Value.vbool false).truthy = true) :=
  c10_compiler_definitions (Configure.default_config 1) _ _ _ _ _ _ _ _
    rfl rfl rfl rfl rfl rfl rfl rfl rfl

/-- C7: the flag-vector and cache renderers are deterministic and
idempotent — with the configuration, environment snapshot
(`CONDA_PREFIX` value), filesystem-existence oracle and clear-cache mode
fixed, two renders of the flag vector agree, two renders of the cache
text agree, and writing the rendered cache text twice leaves the file
system exactly as writing it once does, with the file holding that text
(the write overwrites wholesale). -/
theorem c7_renderers_deterministic_idempotent (cfg : Dict) (conda : String)
    (exists? : String → Bool) (clear : Bool) (fs : String → Option String)
    (path : String) (a a2 : List String) (t t2 : String)
    (h1 : Configure.get_cmake_args cfg = some a)
    (h2 : Configure.get_cmake_args cfg = some a2)
    (h3 : Configure.cacheText conda exists? cfg clear = some t)
    (h4 : Configure.cacheText conda exists? cfg clear = some t2) :
    a = a2 ∧ t = t2 ∧
    Configure.writeText (Configure.writeText fs path t) path t =
      Configure.writeText fs path t ∧
    Configure.writeText fs path t path = some t := by
  refine ⟨Option.some.inj (h1.symm.trans h2),
    Option.some.inj (h3.symm.trans h4), ?_, ?_⟩
  · funext p
    unfold Configure.writeText
    by_cases hp : p = path <;> simp [hp]
  · unfold Configure.writeText
    simp

set_option maxRecDepth 8192 in
/-- C7 witness: idempotence of the cache write at the built-in defaults
(no conda prefix, nothing on disk, clear-cache off). -/
theorem c7_witness :
    Configure.writeText
        (Configure.writeText (fun _ => none) "init.cmake"
          "set(CMAKE_BUILD_TYPE \"Release\" CACHE STRING \"\")\nset(CMAKE_EXPORT_COMPILE_COMMANDS \"ON\" CACHE BOOL \"\")\nset(CMAKE_CXX_STANDARD \"17\" CACHE STRING \"\")\nset(CMAKE_CXX_STANDARD_REQUIRED \"ON\" CACHE BOOL \"\")\nset(CMAKE_CXX_EXTENSIONS \"OFF\" CACHE BOOL \"\")\nset(PRECISION \"double\" CACHE STRING \"\")\nset(NUMBERS \"complex\" CACHE STRING \"\")\nset(DEFAULT_FILE_FORMAT \"hdf5\" CACHE STRING \"\")\nset(ENABLE_TESTING \"ON\" CACHE BOOL \"\")\nset(DEFAULTENSFILE \"/Users/johnmeneghini/Documents/LatticeQCD/spectrums/software/sigmond/ensembles.xml\" CACHE STRING \"\")\n")
        "init.cmake"
        "set(CMAKE_BUILD_TYPE \"Release\" CACHE STRING \"\")\nset(CMAKE_EXPORT_COMPILE_COMMANDS \"ON\" CACHE BOOL \"\")\nset(CMAKE_CXX_STANDARD \"17\" CACHE STRING \"\")\nset(CMAKE_CXX_STANDARD_REQUIRED \"ON\" CACHE BOOL \"\")\nset(CMAKE_CXX_EXTENSIONS \"OFF\" CACHE BOOL \"\")\nset(PRECISION \"double\" CACHE STRING \"\")\nset(NUMBERS \"complex\" CACHE STRING \"\")\nset(DEFAULT_FILE_FORMAT \"hdf5\" CACHE STRING \"\")\nset(ENABLE_TESTING \"ON\" CACHE BOOL \"\")\nset(DEFAULTENSFILE \"/Users/johnmeneghini/Documents/LatticeQCD/spectrums/software/sigmond/ensembles.xml\" CACHE STRING \"\")\n" =
      Configure.writeText (fun _ => none) "init.cmake"
        "set(CMAKE_BUILD_TYPE \"Release\" CACHE STRING \"\")\nset(CMAKE_EXPORT_COMPILE_COMMANDS \"ON\" CACHE BOOL \"\")\nset(CMAKE_CXX_STANDARD \"17\" CACHE STRING \"\")\nset(CMAKE_CXX_STANDARD_REQUIRED \"ON\" CACHE BOOL \"\")\nset(CMAKE_CXX_EXTENSIONS \"OFF\" CACHE BOOL \"\")\nset(PRECISION \"double\" CACHE STRING \"\")\nset(NUMBERS \"complex\" CACHE STRING \"\")\nset(DEFAULT_FILE_FORMAT \"hdf5\" CACHE STRING \"\")\nset(ENABLE_TESTING \"ON\" CACHE BOOL \"\")\nset(DEFAULTENSFILE \"/Users/johnmeneghini/Documents/LatticeQCD/spectrums/software/sigmond/ensembles.xml\" CACHE STRING \"\")\n" ∧
    Configure.writeText (fun _ => none) "init.cmake"
        "set(CMAKE_BUILD_TYPE \"Release\" CACHE STRING \"\")\nset(CMAKE_EXPORT_COMPILE_COMMANDS \"ON\" CACHE BOOL \"\")\nset(CMAKE_CXX_STANDARD \"17\" CACHE STRING \"\")\nset(CMAKE_CXX_STANDARD_REQUIRED \"ON\" CACHE BOOL \"\")\nset(CMAKE_CXX_EXTENSIONS \"OFF\" CACHE BOOL \"\")\nset(PRECISION \"double\" CACHE STRING \"\")\nset(NUMBERS \"complex\" CACHE STRING \"\")\nset(DEFAULT_FILE_FORMAT \"hdf5\" CACHE STRING \"\")\nset(ENABLE_TESTING \"ON\" CACHE BOOL \"\")\nset(DEFAULTENSFILE \"/Users/johnmeneghini/Documents/LatticeQCD/spectrums/software/sigmond/ensembles.xml\" CACHE STRING \"\")\n"
        "init.cmake" =
      some
        "set(CMAKE_BUILD_TYPE \"Release\" CACHE STRING \"\")\nset(CMAKE_EXPORT_COMPILE_COMMANDS \"ON\" CACHE BOOL \"\")\nset(CMAKE_CXX_STANDARD \"17\" CACHE STRING \"\")\nset(CMAKE_CXX_STANDARD_REQUIRED \"ON\" CACHE BOOL \"\")\nset(CMAKE_CXX_EXTENSIONS \"OFF\" CACHE BOOL \"\")\nset(PRECISION \"double\" CACHE STRING \"\")\nset(NUMBERS \"complex\" CACHE STRING \"\")\nset(DEFAULT_FILE_FORMAT \"hdf5\" CACHE STRING \"\")\nset(ENABLE_TESTING \"ON\" CACHE BOOL \"\")\nset(DEFAULTENSFILE \"/Users/johnmeneghini/Documents/LatticeQCD/spectrums/software/sigmond/ensembles.xml\" CACHE STRING \"\")\n" :=
  ⟨(c7_renderers_deterministic_idempotent (Configure.default_config 1) ""
      (fun _ => false) false (fun _ => none) "init.cmake"
      defaultArgsList defaultArgsList _ _ rfl rfl rfl rfl).2.2.1,
   (c7_renderers_deterministic_idempotent (Configure.default_config 1) ""
      (fun _ => false) false (fun _ => none) "init.cmake"
      defaultArgsList defaultArgsList _ _ rfl rfl rfl rfl).2.2.2⟩

/-! ## C6 helpers: shapes of the flag-vector sections -/

theorem allPre_nil (p : String) : allPre p [] := by
  intro s hs
  cases hs

theorem allPre_append (p : String) (l1 l2 : List String)
    (h1 : allPre p l1) (h2 : allPre p l2) : allPre p (l1 ++ l2) := by
  intro s hs
  rcases List.mem_append.1 hs with h | h
  · exact h1 s h
  · exact h2 s h

theorem hasPre_mono (p q s : String) (h : hasPre (p ++ q) s) :
    hasPre p s := by
  obtain ⟨r, hr⟩ := h
  exact ⟨q ++ r, by rw [hr, String.append_assoc]⟩

theorem allPre_mono (p q : String) (l : List String)
    (h : allPre (p ++ q) l) : allPre p l :=
  fun s hs => hasPre_mono p q s (h s hs)

theorem pathArg_allPre (lc : Dict) (key flag : String) :
    allPre ("-D" ++ flag ++ "=") (Configure.pathArg lc key flag) := by
  unfold Configure.pathArg
  rcases dlookup lc key with _ | v
  · exact allPre_nil _
  · by_cases ht : v.truthy <;> simp only [ht, if_true, if_false]
    · intro s hs
      rw [List.mem_singleton] at hs
      exact ⟨pyStr v, by rw [hs, String.append_assoc]⟩
    · exact allPre_nil _

theorem coreArgs_shape (b : Dict) (l : List String)
    (h : Configure.coreArgs b = some l) :
    ∃ p n f, l = ["-DPRECISION=" ++ p, "-DNUMBERS=" ++ n,
                  "-DDEFAULT_FILE_FORMAT=" ++ f] := by
  unfold Configure.coreArgs at h
  simp only [Option.bind_eq_bind, Option.bind_eq_some, Option.pure_def,
    Option.some.injEq] at h
  obtain ⟨v1, _, p, _, v2, _, n, _, v3, _, f, _, hl⟩ := h
  exact ⟨p, n, f, hl.symm⟩

theorem toggleArgs_shape (b : Dict) (l : List String)
    (h : Configure.toggleArgs b = some l) :
    List.Sublist l
      ["-DSKIP_SIGMOND_QUERY=ON", "-DSKIP_SIGMOND_BATCH=ON",
       "-DENABLE_MINUIT=ON", "-DENABLE_GRACE=ON"] := by
  unfold Configure.toggleArgs at h
  simp only [Option.bind_eq_bind, Option.bind_eq_some, Option.pure_def,
    Option.some.injEq] at h
  obtain ⟨v1, _, v2, _, v3, _, v4, _, hl⟩ := h
  subst hl
  have hone : ∀ (c : Bool) (x : String),
      List.Sublist (if c then [x] else []) [x] := by
    intro c x
    cases c <;> simp
  exact ((((hone _ _).append (hone _ _)).append (hone _ _)).append (hone _ _))

theorem verboseArgs_shape (b : Dict) (l : List String)
    (h : Configure.verboseArgs b = some l) :
    l = [] ∨ l = ["-DSIGMOND_VERBOSE=ON", "-DCMAKE_FIND_DEBUG_MODE=ON"] := by
  unfold Configure.verboseArgs at h
  simp only [Option.bind_eq_bind, Option.bind_eq_some, Option.pure_def,
    Option.some.injEq] at h
  obtain ⟨v, _, hl⟩ := h
  by_cases ht : v.truthy <;> simp [ht] at hl <;> simp [hl.symm]

theorem testingArgs_shape (b : Dict) (l : List String)
    (h : Configure.testingArgs b = some l) :
    l = ["-DENABLE_TESTING=ON"] ∨ l = ["-DENABLE_TESTING=OFF"] := by
  unfold Configure.testingArgs at h
  simp only [Option.bind_eq_bind, Option.bind_eq_some, Option.pure_def,
    Option.some.injEq] at h
  obtain ⟨v, _, hl⟩ := h
  by_cases ht : v.truthy <;> simp [ht] at hl <;> simp [hl.symm]

theorem installArgs_shape (b : Dict) (l : List String)
    (h : Configure.installArgs b = some l) :
    ∃ bi qi, l = bi ++ qi ∧
      allPre "-DSIGMOND_BATCH_INSTALL_DIR=" bi ∧
      allPre "-DSIGMOND_QUERY_INSTALL_DIR=" qi := by
  unfold Configure.installArgs at h
  simp only [Option.bind_eq_bind, Option.bind_eq_some, Option.pure_def,
    Option.some.injEq] at h
  obtain ⟨v1, _, v2, _, hl⟩ := h
  refine ⟨_, _, hl.symm, ?_, ?_⟩
  · by_cases ht : v1.truthy <;> simp only [ht, if_true, if_false]
    · intro s hs
      rw [List.mem_singleton] at hs
      exact ⟨pyStr v1, by rw [hs]⟩
    · exact allPre_nil _
  · by_cases ht : v2.truthy <;> simp only [ht, if_true, if_false]
    · intro s hs
      rw [List.mem_singleton] at hs
      exact ⟨pyStr v2, by rw [hs]⟩
    · exact allPre_nil _

theorem ensArgs_allPre (b : Dict) :
    allPre "-DDEFAULTENSFILE=" (Configure.ensArgs b) := by
  unfold Configure.ensArgs
  by_cases ht : (dgetD b "default_ensembles_file" (Value.vstr "")).truthy <;>
    simp only [ht, if_true, if_false]
  · intro s hs
    rw [List.mem_singleton] at hs
    exact ⟨pyStr (dgetD b "default_ensembles_file" (Value.vstr "")),
      by rw [hs]⟩
  · exact allPre_nil _

theorem hdf5Args_allPre (libs : Dict) (l : List String)
    (h : Configure.hdf5Args libs = some l) :
    allPre "-DHDF5_DIR=" l := by
  unfold Configure.hdf5Args at h
  rcases hx : dlookup libs "hdf5" with _ | v <;> rw [hx] at h
  · cases h
    exact allPre_nil _
  · cases v <;> try cases h
    rename_i lc
    exact pathArg_allPre lc "root_dir" "HDF5_DIR"

theorem blasArgs_allPre (libs : Dict) (l : List String)
    (h : Configure.blasArgs libs = some l) :
    allPre "-DBLAS_LIBRARIES=" l := by
  unfold Configure.blasArgs at h
  rcases hx : dlookup libs "blas" with _ | v <;> rw [hx] at h
  · cases h
    exact allPre_nil _
  · cases v <;> try cases h
    rename_i lc
    exact pathArg_allPre lc "library_path" "BLAS_LIBRARIES"

theorem lapackArgs_allPre (libs : Dict) (l : List String)
    (h : Configure.lapackArgs libs = some l) :
    allPre "-DLAPACK_LIBRARIES=" l := by
  unfold Configure.lapackArgs at h
  rcases hx : dlookup libs "lapack" with _ | v <;> rw [hx] at h
  · cases h
    exact allPre_nil _
  · cases v <;> try cases h
    rename_i lc
    exact pathArg_allPre lc "library_path" "LAPACK_LIBRARIES"

theorem accelArgs_allPre (libs : Dict) (l : List String)
    (h : Configure.accelArgs libs = some l) :
    allPre "-DSIGMOND_ACCELERATE_FRAMEWORK_DIR=" l := by
  unfold Configure.accelArgs at h
  rcases hx : dlookup libs "accelerate" with _ | v <;> rw [hx] at h
  · cases h
    exact allPre_nil _
  · cases v <;> try cases h
    rename_i lc
    exact pathArg_allPre lc "framework_dir" "SIGMOND_ACCELERATE_FRAMEWORK_DIR"

theorem minuitArgs_allPre (b libs : Dict) (l : List String)
    (h : Configure.minuitArgs b libs = some l) :
    allPre "-DSIGMOND_MINUIT2_" l := by
  unfold Configure.minuitArgs at h
  simp only [Option.bind_eq_bind, Option.bind_eq_some] at h
  obtain ⟨v, _, hv⟩ := h
  by_cases ht : v.truthy = true
  · rw [if_pos ht] at hv
    rcases hx : dlookup libs "minuit2" with _ | w <;> rw [hx] at hv
    · cases hv
      exact allPre_nil _
    · cases w <;> try cases hv
      rename_i lc
      refine allPre_append _ _ _ ?_ ?_
      · exact allPre_mono "-DSIGMOND_MINUIT2_" "INCLUDE_DIR="
          _ (pathArg_allPre lc "include_dir" "SIGMOND_MINUIT2_INCLUDE_DIR")
      · exact allPre_mono "-DSIGMOND_MINUIT2_" "LIBRARY_DIR="
          _ (pathArg_allPre lc "library_dir" "SIGMOND_MINUIT2_LIBRARY_DIR")
  · rw [if_neg ht] at hv
    cases hv
    exact allPre_nil _

theorem graceArgs_allPre (b libs : Dict) (l : List String)
    (h : Configure.graceArgs b libs = some l) :
    allPre "-DSIGMOND_GRACE_" l := by
  unfold Configure.graceArgs at h
  simp only [Option.bind_eq_bind, Option.bind_eq_some] at h
  obtain ⟨v, _, hv⟩ := h
  by_cases ht : v.truthy = true
  · rw [if_pos ht] at hv
    rcases hx : dlookup libs "grace" with _ | w <;> rw [hx] at hv
    · cases hv
      exact allPre_nil _
    · cases w <;> try cases hv
      rename_i lc
      refine allPre_append _ _ _ ?_ ?_
      · exact allPre_mono "-DSIGMOND_GRACE_" "INCLUDE_DIR="
          _ (pathArg_allPre lc "include_dir" "SIGMOND_GRACE_INCLUDE_DIR")
      · exact allPre_mono "-DSIGMOND_GRACE_" "LIBRARY_DIR="
          _ (pathArg_allPre lc "library_dir" "SIGMOND_GRACE_LIBRARY_DIR")
  · rw [if_neg ht] at hv
    cases hv
    exact allPre_nil _

theorem compilerArgs_shape (cfg : Dict) (l : List String)
    (h : Configure.compilerArgs cfg = some l) :
    ∃ cc cx, l = cc ++ cx ∧ allPre "-DCMAKE_C_COMPILER=" cc ∧
      allPre "-DCMAKE_CXX_COMPILER=" cx := by
  unfold Configure.compilerArgs at h
  rcases hx : dlookup cfg "compiler" with _ | v <;> rw [hx] at h
  · cases h
    exact ⟨[], [], rfl, allPre_nil _, allPre_nil _⟩
  · cases v <;> try cases h
    rename_i cc
    exact ⟨_, _, rfl, pathArg_allPre cc "c_compiler" "CMAKE_C_COMPILER",
      pathArg_allPre cc "cxx_compiler" "CMAKE_CXX_COMPILER"⟩

/-- C6: for every configuration on which the flag-vector renderer
succeeds, the rendered vector is exactly the concatenation, in this
fixed order, of: the three core precision/number-domain/file-format
definitions; the boolean feature toggles in the fixed enumerated order
skip-query, skip-batch, minuit, grace; the verbose-mode pair; exactly
one testing toggle; the install-directory overrides (batch before
query); the default-data-file definition; the extra-definitions list;
the per-library path definitions in the fixed order hdf5, blas, lapack,
minuit2, grace, accelerate; and the compiler-executable overrides
(C before CXX) last. -/
theorem c6_flag_vector_order (cfg : Dict) (args : List String)
    (h : Configure.get_cmake_args cfg = some args) :
    ∃ b core toggles verbose testing install h5 bl lp mn gr ac comps,
      buildDict cfg = some b ∧
      args = core ++ toggles ++ verbose ++ testing ++ install ++
             Configure.ensArgs b ++ Configure.extraArgs b ++
             h5 ++ bl ++ lp ++ mn ++ gr ++ ac ++ comps ∧
      (∃ p n f, core = ["-DPRECISION=" ++ p, "-DNUMBERS=" ++ n,
                        "-DDEFAULT_FILE_FORMAT=" ++ f]) ∧
      List.Sublist toggles
        ["-DSKIP_SIGMOND_QUERY=ON", "-DSKIP_SIGMOND_BATCH=ON",
         "-DENABLE_MINUIT=ON", "-DENABLE_GRACE=ON"] ∧
      (verbose = [] ∨
        verbose = ["-DSIGMOND_VERBOSE=ON", "-DCMAKE_FIND_DEBUG_MODE=ON"]) ∧
      (testing = ["-DENABLE_TESTING=ON"] ∨
        testing = ["-DENABLE_TESTING=OFF"]) ∧
      (∃ bi qi, install = bi ++ qi ∧
         allPre "-DSIGMOND_BATCH_INSTALL_DIR=" bi ∧
         allPre "-DSIGMOND_QUERY_INSTALL_DIR=" qi) ∧
      allPre "-DDEFAULTENSFILE=" (Configure.ensArgs b) ∧
      allPre "-DHDF5_DIR=" h5 ∧ allPre "-DBLAS_LIBRARIES=" bl ∧
      allPre "-DLAPACK_LIBRARIES=" lp ∧
      allPre "-DSIGMOND_MINUIT2_" mn ∧ allPre "-DSIGMOND_GRACE_" gr ∧
      allPre "-DSIGMOND_ACCELERATE_FRAMEWORK_DIR=" ac ∧
      (∃ cc cx, comps = cc ++ cx ∧ allPre "-DCMAKE_C_COMPILER=" cc ∧
         allPre "-DCMAKE_CXX_COMPILER=" cx) := by
  rw [show Configure.get_cmake_args cfg = Option.bind (buildDict cfg)
    (fun b => Option.bind (Configure.coreArgs b) (fun core =>
      Option.bind (Configure.toggleArgs b) (fun toggles =>
      Option.bind (Configure.verboseArgs b) (fun verbose =>
      Option.bind (Configure.testingArgs b) (fun testing =>
      Option.bind (Configure.installArgs b) (fun install =>
      Option.bind (libsDict cfg) (fun libs =>
      Option.bind (Configure.hdf5Args libs) (fun hdf5 =>
      Option.bind (Configure.blasArgs libs) (fun blas =>
      Option.bind (Configure.lapackArgs libs) (fun lapack =>
      Option.bind (Configure.minuitArgs b libs) (fun minuit =>
      Option.bind (Configure.graceArgs b libs) (fun grace =>
      Option.bind (Configure.accelArgs libs) (fun accel =>
      Option.bind (Configure.compilerArgs cfg) (fun comps =>
      some (core ++ toggles ++ verbose ++ testing ++ install ++
        Configure.ensArgs b ++ Configure.extraArgs b ++
        hdf5 ++ blas ++ lapack ++ minuit ++ grace ++ accel ++
        comps)))))))))))))))
    from rfl] at h
  rw [Option.bind_eq_some] at h
  obtain ⟨b, hb, h⟩ := h
  rw [Option.bind_eq_some] at h
  obtain ⟨core, hcore, h⟩ := h
  rw [Option.bind_eq_some] at h
  obtain ⟨toggles, htog, h⟩ := h
  rw [Option.bind_eq_some] at h
  obtain ⟨verbose, hvrb, h⟩ := h
  rw [Option.bind_eq_some] at h
  obtain ⟨testing, htst, h⟩ := h
  rw [Option.bind_eq_some] at h
  obtain ⟨install, hins, h⟩ := h
  rw [Option.bind_eq_some] at h
  obtain ⟨libs, hlibs, h⟩ := h
  rw [Option.bind_eq_some] at h
  obtain ⟨h5, hh5, h⟩ := h
  rw [Option.bind_eq_some] at h
  obtain ⟨bl, hbl, h⟩ := h
  rw [Option.bind_eq_some] at h
  obtain ⟨lp, hlp, h⟩ := h
  rw [Option.bind_eq_some] at h
  obtain ⟨mn, hmn, h⟩ := h
  rw [Option.bind_eq_some] at h
  obtain ⟨gr, hgr, h⟩ := h
  rw [Option.bind_eq_some] at h
  obtain ⟨ac, hac, h⟩ := h
  rw [Option.bind_eq_some] at h
  obtain ⟨cp, hcp, h⟩ := h
  rw [Option.some.injEq] at h
  exact ⟨b, core, toggles, verbose, testing, install, h5, bl, lp, mn, gr,
    ac, cp, hb, h.symm,
    coreArgs_shape b core hcore, toggleArgs_shape b toggles htog,
    verboseArgs_shape b verbose hvrb, testingArgs_shape b testing htst,
    installArgs_shape b install hins, ensArgs_allPre b,
    hdf5Args_allPre libs h5 hh5, blasArgs_allPre libs bl hbl,
    lapackArgs_allPre libs lp hlp, minuitArgs_allPre b libs mn hmn,
    graceArgs_allPre b libs gr hgr, accelArgs_allPre libs ac hac,
    compilerArgs_shape cfg cp hcp⟩

/-- C6 witness: the ordering statement at the built-in defaults, whose
rendered vector is the five-element default flag list. -/
theorem c6_witness :
    ∃ b core toggles verbose testing install h5 bl lp mn gr ac comps,
      buildDict (Configure.default_config 1) = some b ∧
      defaultArgsList = core ++ toggles ++ verbose ++ testing ++ install ++
             Configure.ensArgs b ++ Configure.extraArgs b ++
             h5 ++ bl ++ lp ++ mn ++ gr ++ ac ++ comps ∧
      (∃ p n f, core = ["-DPRECISION=" ++ p, "-DNUMBERS=" ++ n,
                        "-DDEFAULT_FILE_FORMAT=" ++ f]) ∧
      List.Sublist toggles
        ["-DSKIP_SIGMOND_QUERY=ON", "-DSKIP_SIGMOND_BATCH=ON",
         "-DENABLE_MINUIT=ON", "-DENABLE_GRACE=ON"] ∧
      (verbose = [] ∨
        verbose = ["-DSIGMOND_VERBOSE=ON", "-DCMAKE_FIND_DEBUG_MODE=ON"]) ∧
      (testing = ["-DENABLE_TESTING=ON"] ∨
        testing = ["-DENABLE_TESTING=OFF"]) ∧
      (∃ bi qi, install = bi ++ qi ∧
         allPre "-DSIGMOND_BATCH_INSTALL_DIR=" bi ∧
         allPre "-DSIGMOND_QUERY_INSTALL_DIR=" qi) ∧
      allPre "-DDEFAULTENSFILE=" (Configure.ensArgs b) ∧
      allPre "-DHDF5_DIR=" h5 ∧ allPre "-DBLAS_LIBRARIES=" bl ∧
      allPre "-DLAPACK_LIBRARIES=" lp ∧
      allPre "-DSIGMOND_MINUIT2_" mn ∧ allPre "-DSIGMOND_GRACE_" gr ∧
      allPre "-DSIGMOND_ACCELERATE_FRAMEWORK_DIR=" ac ∧
      (∃ cc cx, comps = cc ++ cx ∧ allPre "-DCMAKE_C_COMPILER=" cc ∧
         allPre "-DCMAKE_CXX_COMPILER=" cx) :=
  c6_flag_vector_order (Configure.default_config 1) defaultArgsList rfl
